import Mathlib

/-!
Shallow embedding of the BlitzWare React Native SDK auth client
(`src/BlitzWareAuthClient.ts`, `src/utils/index.ts`, `src/types/index.ts`).

External collaborators (the network, `expo-auth-session`, `SecureStore`,
`AsyncStorage`, `Buffer`/`atob`, `JSON.parse`) are modelled as an explicit
environment of oracles; all logic authored in the repository is translated
directly from the source.
-/

namespace BlitzWare

/-- Error kinds of the SDK (the `AuthErrorCode` enum in `types/index.ts`). -/
inductive AuthErrorCode where
  | configuration_error
  | network_error
  | authentication_failed
  | token_expired
  | refresh_failed
  | logout_failed
  | user_info_failed
  | storage_error
  | introspection_failed
  | unknown_error
deriving DecidableEq

/-- The `BlitzWareError` class: a message plus an optional kind code. -/
structure BlitzWareError where
  message : String
  code : Option AuthErrorCode
deriving DecidableEq

/-- A thrown JavaScript value: either a typed `BlitzWareError` or a generic
`Error` carrying only a message (network, storage, `new Error(...)`). -/
inductive JsError where
  | blitz (e : BlitzWareError)
  | generic (message : String)
deriving DecidableEq

/-- The `handleError` method: a `BlitzWareError` passes through unchanged
(`instanceof` check); anything else is wrapped with the given code. -/
def handleError (error : JsError) (code : AuthErrorCode) : BlitzWareError :=
  match error with
  | .blitz e => e
  | .generic m => { message := m, code := some code }

/-- A role object (`Role` in `types/index.ts`). -/
structure Role where
  id : String
  name : String
  description : Option String
deriving DecidableEq

/-- A runtime role entry: the `roles` array holds either bare strings or
role objects (`string[] | Role[]`). -/
inductive RoleEntry where
  | str (s : String)
  | obj (r : Role)
deriving DecidableEq

/-- Whether a role entry is a bare string. -/
def RoleEntry.isStr : RoleEntry → Bool
  | .str _ => true
  | .obj _ => false

/-- The `BlitzWareUser` shape, restricted to the fields the verified
operations read (`sub` and `roles`). -/
structure User where
  sub : String
  roles : Option (List RoleEntry)
deriving DecidableEq

/-- The persisted token/user state: SecureStore keys
`blitzware_access_token` / `blitzware_refresh_token` and AsyncStorage keys
`@blitzware/user` / `@blitzware/token_expiry`. -/
structure Storage where
  accessToken : Option String
  refreshToken : Option String
  user : Option User
  tokenExpiry : Option Int
deriving DecidableEq

/-- Storage with every key absent. -/
def Storage.empty : Storage :=
  { accessToken := none, refreshToken := none, user := none, tokenExpiry := none }

/-- The discovery document shape used by the client (the expo-auth-session
`DiscoveryDocument` fields the fallback sets; all optional). -/
structure DiscoveryDocument where
  authorizationEndpoint : Option String
  tokenEndpoint : Option String
  revocationEndpoint : Option String
  userInfoEndpoint : Option String
  endSessionEndpoint : Option String
deriving DecidableEq

/-- The fixed service base URL (`BASE_URL`). -/
def BASE_URL : String := "https://auth.blitzware.xyz/api/auth"

/-- The hardcoded fallback discovery document built when
`AuthSession.fetchDiscoveryAsync` fails (lines 66-72 of the client). -/
def fallbackDiscovery : DiscoveryDocument :=
  { authorizationEndpoint := some (BASE_URL ++ "/authorize")
  , tokenEndpoint := some (BASE_URL ++ "/token")
  , revocationEndpoint := some (BASE_URL ++ "/revoke")
  , userInfoEndpoint := some (BASE_URL ++ "/userinfo")
  , endSessionEndpoint := some (BASE_URL ++ "/logout") }

/-- All endpoint URLs present in a discovery document. -/
def discoveryEndpoints (d : DiscoveryDocument) : List String :=
  [d.authorizationEndpoint, d.tokenEndpoint, d.revocationEndpoint,
   d.userInfoEndpoint, d.endSessionEndpoint].filterMap id

/-- RFC 7662 introspection response, restricted to the `active` field the
client reads. -/
structure TokenIntrospectionResponse where
  active : Bool
deriving DecidableEq

/-- The `token_type_hint` values used by `introspectToken`. -/
inductive TokenTypeHint where
  | access_token
  | refresh_token
deriving DecidableEq

/-- A token-endpoint response (from `exchangeCodeAsync` / `refreshAsync`). -/
structure TokenResponse where
  accessToken : String
  refreshToken : Option String
  expiresIn : Option Int
deriving DecidableEq

/-- The `TokenSet` passed to `storeTokens`. -/
structure TokenSet where
  accessToken : String
  refreshToken : Option String
  expiresAt : Option Int
deriving DecidableEq

/-- Outcome of the interactive `promptAsync` step: a redirect carrying an
authorization code, or anything other than `type === "success"`. -/
inductive PromptOutcome where
  | success (code : String)
  | failure
deriving DecidableEq

/-- A JavaScript value, as produced by `JSON.parse` and inspected by the
JWT expiry check. Numbers are modelled as integers. -/
inductive JsValue where
  | undefined
  | nul
  | bool (b : Bool)
  | num (n : Int)
  | str (s : String)
  | arr (xs : List JsValue)
  | obj (fields : List (String × JsValue))

/-- JavaScript truthiness of a modelled value. -/
def jsTruthy : JsValue → Bool
  | .undefined => false
  | .nul => false
  | .bool b => b
  | .num n => n != 0
  | .str s => s != ""
  | .arr _ => true
  | .obj _ => true

/-- Whether `typeof v === "object"` holds (objects, arrays and `null`). -/
def jsTypeofObject : JsValue → Bool
  | .obj _ => true
  | .arr _ => true
  | .nul => true
  | _ => false

/-- Property lookup `v[k]`: a field of an object, `undefined` otherwise. -/
def jsGetField (v : JsValue) (k : String) : JsValue :=
  match v with
  | .obj fields =>
    match fields.find? (fun f => f.1 == k) with
    | some f => f.2
    | none => .undefined
  | _ => .undefined

/-- Lowercases a string character by character (the JS
`String.prototype.toLowerCase` on the ASCII range). -/
def jsToLower (s : String) : String :=
  String.mk (s.data.map Char.toLower)

/-- Splits a character list on a separator character, keeping empty
segments (the JS `String.prototype.split` with a one-character
separator). -/
def splitChar (sep : Char) : List Char → List (List Char)
  | [] => [[]]
  | c :: rest =>
    let r := splitChar sep rest
    if c = sep then [] :: r
    else
      match r with
      | h :: t => (c :: h) :: t
      | [] => [[c]]

/-- String form of `splitChar`. -/
def jsSplit (sep : Char) (s : String) : List String :=
  (splitChar sep s.data).map String.mk

/-- Whether a character is JS whitespace (the forms `Number` trims). -/
def isWsChar (c : Char) : Bool :=
  c = ' ' || c = '\t' || c = '\n' || c = '\r'

/-- Trims leading and trailing whitespace from a character list. -/
def trimChars (l : List Char) : List Char :=
  ((l.dropWhile isWsChar).reverse.dropWhile isWsChar).reverse

/-- Models the JS `Number(string)` coercion on integer-format strings:
trimmed empty string is `0`, an optional sign followed by digits is that
integer, anything else is `NaN` (`none`). -/
def strToNumber (s : String) : Option Int :=
  let t := trimChars s.data
  if t = [] then some 0
  else
    let (neg, digits) :=
      match t with
      | '-' :: rest => (true, rest)
      | '+' :: rest => (false, rest)
      | l => (false, l)
    if digits = [] then none
    else if digits.all (fun c => c.isDigit) then
      let n : Int := digits.foldl (fun acc c => acc * 10 + (c.toNat - '0'.toNat : Int)) 0
      some (if neg then -n else n)
    else none

/-- Models the JS `Number(v)` coercion on the modelled value forms
(`none` is `NaN`). -/
def jsNumber : JsValue → Option Int
  | .num n => some n
  | .str s => strToNumber s
  | .bool b => some (if b then 1 else 0)
  | .nul => some 0
  | .undefined => none
  | .arr [] => some 0
  | .arr [x] => jsNumber x
  | .arr _ => none
  | .obj _ => none

/-- The environment of external collaborators: the current clock, the
network oracles, the base64/JSON decoding stack, and whether each kind
of storage write/delete operation succeeds. Reads are modelled as
reliable (the client treats read failures as absence anyway). -/
structure Env where
  now : Int
  fetchDiscovery : Except String DiscoveryDocument
  prompt : PromptOutcome
  exchange : Except String TokenResponse
  refreshCall : String → Except String TokenResponse
  introspect : String → TokenTypeHint → Except String TokenIntrospectionResponse
  userinfo : String → Except String User
  logoutPost : Except String Unit
  decodeB64 : String → Except String String
  jsonParse : String → Except String JsValue
  secureSetOk : Bool
  asyncSetOk : Bool
  secureDeleteOk : Bool
  asyncRemoveOk : Bool

/-- The client's in-memory state: the memoized discovery document and the
persisted storage. -/
structure ClientState where
  discovery : Option DiscoveryDocument
  storage : Storage
deriving DecidableEq

/-- The `getDiscovery` method: return the memoized document, or resolve
once — fetch, and on any failure fall back to the hardcoded endpoints. -/
def getDiscovery (env : Env) (cs : ClientState) : DiscoveryDocument × ClientState :=
  match cs.discovery with
  | some d => (d, cs)
  | none =>
    let d :=
      match env.fetchDiscovery with
      | .ok d => d
      | .error _ => fallbackDiscovery
    (d, { cs with discovery := some d })

/-- The `storeTokens` method: write the access token, refresh token and
expiry that are present (and truthy); a failing write is caught and
rethrown as a `storage_error` `BlitzWareError`. -/
def storeTokens (env : Env) (tokens : TokenSet) (st : Storage) :
    Except JsError Unit × Storage :=
  if tokens.accessToken ≠ "" ∧ env.secureSetOk = false then
    (.error (.blitz (handleError (.generic "SecureStore write failed") .storage_error)), st)
  else
    let st1 :=
      if tokens.accessToken ≠ "" then { st with accessToken := some tokens.accessToken }
      else st
    match tokens.refreshToken with
    | some rt =>
      if rt ≠ "" ∧ env.secureSetOk = false then
        (.error (.blitz (handleError (.generic "SecureStore write failed") .storage_error)), st1)
      else
        let st2 := if rt ≠ "" then { st1 with refreshToken := some rt } else st1
        storeExpiry env tokens st2
    | none => storeExpiry env tokens st1
where
  /-- The final step of `storeTokens`: persist a truthy `expiresAt`. -/
  storeExpiry (env : Env) (tokens : TokenSet) (st : Storage) :
      Except JsError Unit × Storage :=
    match tokens.expiresAt with
    | some e =>
      if e ≠ 0 ∧ env.asyncSetOk = false then
        (.error (.blitz (handleError (.generic "AsyncStorage write failed") .storage_error)), st)
      else if e ≠ 0 then (.ok (), { st with tokenExpiry := some e })
      else (.ok (), st)
    | none => (.ok (), st)

/-- The `storeUser` method: write the user blob; a failure is caught and
only logged, so the method never throws. -/
def storeUser (env : Env) (user : User) (st : Storage) : Storage :=
  if env.asyncSetOk then { st with user := some user } else st

/-- The `getStoredToken` method: read a SecureStore key, with read
failures caught to `null`. -/
def getStoredToken (st : Storage) (type : TokenTypeHint) : Option String :=
  match type with
  | .access_token => st.accessToken
  | .refresh_token => st.refreshToken

/-- The `clearStorage` method: delete both SecureStore keys, then clear
the AsyncStorage keys; any failure is caught and only logged (the ops
after the failing one are skipped), so the method never throws. -/
def clearStorage (env : Env) (st : Storage) : Storage :=
  if env.secureDeleteOk = false then st
  else if env.asyncRemoveOk = false then
    { st with accessToken := none, refreshToken := none }
  else Storage.empty

/-- The `introspectToken` method: POST to `/introspect`; a transport or
non-2xx failure is rethrown as `introspection_failed`. -/
def introspectToken (env : Env) (token : String) (hint : TokenTypeHint) :
    Except JsError TokenIntrospectionResponse :=
  match env.introspect token hint with
  | .ok r => .ok r
  | .error m => .error (.blitz (handleError (.generic m) .introspection_failed))

/-- The `validateAccessToken` helper: absent (or falsy) stored token means
inactive; an introspection failure is swallowed to inactive. -/
def validateAccessToken (env : Env) (st : Storage) : TokenIntrospectionResponse :=
  match getStoredToken st .access_token with
  | none => { active := false }
  | some t =>
    if t = "" then { active := false }
    else
      match introspectToken env t .access_token with
      | .ok r => r
      | .error _ => { active := false }

/-- The `validateRefreshToken` helper: absent (or falsy) stored token
means inactive; an introspection failure is swallowed to inactive. -/
def validateRefreshToken (env : Env) (st : Storage) : TokenIntrospectionResponse :=
  match getStoredToken st .refresh_token with
  | none => { active := false }
  | some t =>
    if t = "" then { active := false }
    else
      match introspectToken env t .refresh_token with
      | .ok r => r
      | .error _ => { active := false }

/-- The `isAuthenticated` method: server-side introspection of the stored
access token, never raising. -/
def isAuthenticated (env : Env) (st : Storage) : Bool :=
  (validateAccessToken env st).active

/-- The `padEnd` call used on the base64 payload. -/
def padEnd (s : String) (target : Nat) (c : Char) : String :=
  if s.length ≥ target then s
  else s ++ String.mk (List.replicate (target - s.length) c)

/-- The `parseJwt` method: split the token on dots, require exactly three
parts, normalize base64url to padded base64, decode and JSON-parse the
payload; any failure yields `{}`. -/
def parseJwt (env : Env) (token : String) : JsValue :=
  if token = "" then .obj []
  else
    let parts := jsSplit '.' token
    if parts.length ≠ 3 then .obj []
    else
      let base64Url := parts.getD 1 ""
      let base64 := String.mk (base64Url.data.map
        (fun c => if c = '-' then '+' else if c = '_' then '/' else c))
      let padded := padEnd base64 (base64.length + ((4 - base64.length % 4) % 4)) '='
      match env.decodeB64 padded with
      | .error _ => .obj []
      | .ok jsonPayload =>
        match env.jsonParse jsonPayload with
        | .error _ => .obj []
        | .ok v => v

/-- The `parseExp` method: a falsy `exp` is invalid; a non-number is
coerced with `Number`; `NaN` is invalid; otherwise the expiry is
`exp * 1000` milliseconds. -/
def parseExp (exp : JsValue) : Option Int :=
  if jsTruthy exp = false then none
  else
    let n :=
      match exp with
      | .num m => some m
      | v => jsNumber v
    match n with
    | none => none
    | some m => some (m * 1000)

/-- The expiry-in-milliseconds a stored token yields under the local
check: the parsed payload must be a truthy object and its `exp` claim
must survive `parseExp`. -/
def localTokenExpiryMs (env : Env) (token : String) : Option Int :=
  let payload := parseJwt env token
  if jsTruthy payload ∧ jsTypeofObject payload then
    parseExp (jsGetField payload "exp")
  else none

/-- The `isTokenValidLocally` method: a stored, truthy, three-part JWT
whose decoded `exp` is strictly in the future. -/
def isTokenValidLocally (env : Env) (st : Storage) : Bool :=
  match getStoredToken st .access_token with
  | none => false
  | some token =>
    if token = "" then false
    else
      match localTokenExpiryMs env token with
      | none => false
      | some expMs => decide (env.now < expMs)

/-- The `TokenSet` that `refreshAccessToken` persists: a falsy rotated
refresh token is replaced by the original, and a falsy `expiresIn`
leaves the expiry absent. -/
def refreshTokenSet (env : Env) (tr : TokenResponse) (original : String) : TokenSet :=
  { accessToken := tr.accessToken
  , refreshToken := some
      (match tr.refreshToken with
       | some s => if s = "" then original else s
       | none => original)
  , expiresAt :=
      match tr.expiresIn with
      | some n => if n = 0 then none else some (env.now + n * 1000)
      | none => none }

/-- The body of `refreshAccessToken` before its catch clause: introspect
the refresh token (failing closed), re-read it, resolve discovery,
exchange it, persist the new token set. -/
def refreshAccessTokenBody (env : Env) (cs : ClientState) :
    Except JsError String × ClientState :=
  if (validateRefreshToken env cs.storage).active = false then
    (.error (.blitz { message := "Refresh token is invalid or expired"
                    , code := some .refresh_failed }), cs)
  else
    match getStoredToken cs.storage .refresh_token with
    | none =>
      (.error (.blitz { message := "No refresh token available"
                      , code := some .refresh_failed }), cs)
    | some rt =>
      if rt = "" then
        (.error (.blitz { message := "No refresh token available"
                        , code := some .refresh_failed }), cs)
      else
        let cs2 := (getDiscovery env cs).2
        match env.refreshCall rt with
        | .error m => (.error (.generic m), cs2)
        | .ok tr =>
          match storeTokens env (refreshTokenSet env tr rt) cs2.storage with
          | (.error e, st) => (.error e, { cs2 with storage := st })
          | (.ok _, st) => (.ok tr.accessToken, { cs2 with storage := st })

/-- The `refreshAccessToken` method: on any failure of the body, clear
all stored authentication data and rethrow via
`handleError (·, refresh_failed)`. -/
def refreshAccessToken (env : Env) (cs : ClientState) :
    Except BlitzWareError String × ClientState :=
  match refreshAccessTokenBody env cs with
  | (.ok t, cs') => (.ok t, cs')
  | (.error e, cs') =>
    (.error (handleError e .refresh_failed),
     { cs' with storage := clearStorage env cs'.storage })

/-- The `getAccessToken` method: local validity check first, refreshing
(and returning `null` on refresh failure) when it fails; then the
server introspection check with the same refresh-on-inactive step; only
a server-confirmed token is returned as stored. -/
def getAccessToken (env : Env) (cs : ClientState) :
    Except BlitzWareError (Option String) × ClientState :=
  if isTokenValidLocally env cs.storage = false then
    match refreshAccessToken env cs with
    | (.ok t, cs') => (.ok (some t), cs')
    | (.error _, cs') => (.ok none, cs')
  else if isAuthenticated env cs.storage = false then
    match refreshAccessToken env cs with
    | (.ok t, cs') => (.ok (some t), cs')
    | (.error _, cs') => (.ok none, cs')
  else (.ok (getStoredToken cs.storage .access_token), cs)

/-- The `fetchUserInfo` method: introspect the stored access token
(failing closed), require a truthy stored token, then GET `/userinfo`;
transport failures become `network_error`, while the typed
`token_expired` errors pass through `handleError` unchanged. -/
def fetchUserInfo (env : Env) (st : Storage) : Except JsError User :=
  if (validateAccessToken env st).active = false then
    .error (.blitz { message := "Access token is invalid or expired"
                   , code := some .token_expired })
  else
    match getStoredToken st .access_token with
    | none =>
      .error (.blitz { message := "No access token available"
                     , code := some .token_expired })
    | some t =>
      if t = "" then
        .error (.blitz { message := "No access token available"
                       , code := some .token_expired })
      else
        match env.userinfo t with
        | .ok u => .ok u
        | .error m => .error (.blitz (handleError (.generic m) .network_error))

/-- The `TokenSet` that `login` persists: a falsy issued refresh token is
stored as absent, and a falsy `expiresIn` leaves the expiry absent. -/
def loginTokenSet (env : Env) (tr : TokenResponse) : TokenSet :=
  { accessToken := tr.accessToken
  , refreshToken :=
      match tr.refreshToken with
      | some s => if s = "" then none else some s
      | none => none
  , expiresAt :=
      match tr.expiresIn with
      | some n => if n = 0 then none else some (env.now + n * 1000)
      | none => none }

/-- The `login` method: resolve discovery, prompt, exchange the code,
persist the token set, validate and fetch the user, persist the user;
any thrown error is normalized via `handleError (·, authentication_failed)`. -/
def login (env : Env) (cs : ClientState) :
    Except BlitzWareError User × ClientState :=
  let cs1 := (getDiscovery env cs).2
  match env.prompt with
  | .failure =>
    (.error (handleError (.generic "Authorization was cancelled or failed")
       .authentication_failed), cs1)
  | .success _ =>
    match env.exchange with
    | .error m => (.error (handleError (.generic m) .authentication_failed), cs1)
    | .ok tr =>
      match storeTokens env (loginTokenSet env tr) cs1.storage with
      | (.error e, st2) =>
        (.error (handleError e .authentication_failed), { cs1 with storage := st2 })
      | (.ok _, st2) =>
        match fetchUserInfo env st2 with
        | .error e =>
          (.error (handleError e .authentication_failed), { cs1 with storage := st2 })
        | .ok u =>
          (.ok u, { cs1 with storage := storeUser env u st2 })

/-- The `logout` method: read the stored access token, best-effort POST
to `/logout` when one is present (failures logged and swallowed), then
clear storage (which itself never throws); the method's own catch
clause is unreachable, so `logout` never raises. -/
def logout (env : Env) (cs : ClientState) :
    Except BlitzWareError Unit × ClientState :=
  let _remote :=
    match getStoredToken cs.storage .access_token with
    | some t => if t ≠ "" then some env.logoutPost else none
    | none => none
  (.ok (), { cs with storage := clearStorage env cs.storage })

/-- The `getUser` method: ensure a valid access token (null means no
session), prefer the cached user blob, otherwise fetch and cache; every
failure is caught to `null`. -/
def getUser (env : Env) (cs : ClientState) : Option User × ClientState :=
  match getAccessToken env cs with
  | (.error _, cs') => (none, cs')
  | (.ok none, cs') => (none, cs')
  | (.ok (some t), cs') =>
    if t = "" then (none, cs')
    else
      match cs'.storage.user with
      | some u => (some u, cs')
      | none =>
        match fetchUserInfo env cs'.storage with
        | .ok u => (some u, { cs' with storage := storeUser env u cs'.storage })
        | .error _ => (none, cs')

/-- Case-insensitive match of one role entry against a queried role name
(the callback of the client's `hasRole`): bare strings and role objects
are both lowercased before comparison. -/
def entryMatches (roleName : String) : RoleEntry → Bool
  | .str s => jsToLower s == jsToLower roleName
  | .obj r => jsToLower r.name == jsToLower roleName

/-- The client's `hasRole` method: load the user via `getUser`, then
match each entry of either shape case-insensitively; absent user or
roles give `false`, and the catch-all returns `false`. -/
def clientHasRole (env : Env) (cs : ClientState) (roleName : String) :
    Bool × ClientState :=
  match getUser env cs with
  | (none, cs') => (false, cs')
  | (some u, cs') =>
    match u.roles with
    | none => (false, cs')
    | some rs => (rs.any (entryMatches roleName), cs')

/-- The early-exit `Array.prototype.some` semantics over a callback that
may throw: stop at the first `true`, propagate the first thrown error. -/
def someExcept (f : RoleEntry → Except String Bool) : List RoleEntry → Except String Bool
  | [] => .ok false
  | e :: rest =>
    match f e with
    | .error m => .error m
    | .ok true => .ok true
    | .ok false => someExcept f rest

/-- The standalone utility `hasRole` of `utils/index.ts`: it calls
`role.toLowerCase()` on each entry directly, which throws a `TypeError`
at runtime when the entry is a role object rather than a string. -/
def utilsHasRole (user : Option User) (roleName : String) : Except String Bool :=
  match user with
  | none => .ok false
  | some u =>
    match u.roles with
    | none => .ok false
    | some rs =>
      someExcept
        (fun e =>
          match e with
          | .str s => .ok (jsToLower s == jsToLower roleName)
          | .obj _ => .error "TypeError: role.toLowerCase is not a function")
        rs

/-- Maps a `refreshAccessToken` outcome to the value `getAccessToken`
produces from it: the new token on success, `null` (no exception) on
failure. -/
def refreshToGet :
    Except BlitzWareError String × ClientState →
    Except BlitzWareError (Option String) × ClientState
  | (.ok t, cs) => (.ok (some t), cs)
  | (.error _, cs) => (.ok none, cs)

/-- Whether an `Except` result is an error. -/
def isError : Except BlitzWareError α → Bool
  | .error _ => true
  | .ok _ => false

/-- The kind code of an error result, if any. -/
def errCode : Except BlitzWareError α → Option AuthErrorCode
  | .error e => e.code
  | .ok _ => none

/-- A concrete environment: reliable storage, unreachable discovery and
logout endpoints, a successful interactive login issuing `AT1`/`RT1`,
introspection reporting every token inactive, and a decode stack whose
JSON payload carries `exp = 5` (seconds) against a clock of `5000`
milliseconds. -/
def envBase : Env :=
  { now := 5000
  , fetchDiscovery := .error "network unreachable"
  , prompt := .success "AUTHCODE"
  , exchange := .ok { accessToken := "AT1", refreshToken := some "RT1", expiresIn := some 3600 }
  , refreshCall := fun _ => .ok { accessToken := "AT2", refreshToken := some "RT2", expiresIn := some 60 }
  , introspect := fun _ _ => .ok { active := false }
  , userinfo := fun _ => .ok { sub := "u1", roles := some [.str "admin"] }
  , logoutPost := .error "logout endpoint unreachable"
  , decodeB64 := fun _ => .ok "decoded-payload"
  , jsonParse := fun _ => .ok (.obj [("exp", .num 5)])
  , secureSetOk := true
  , asyncSetOk := true
  , secureDeleteOk := true
  , asyncRemoveOk := true }

/-- Like `envBase` but introspection reports tokens active and the
SecureStore write operation fails. -/
def envActiveSetFail : Env :=
  { envBase with introspect := fun _ _ => .ok { active := true }, secureSetOk := false }

/-- Like `envBase` but the SecureStore delete operation fails. -/
def envDeleteFail : Env :=
  { envBase with secureDeleteOk := false }

/-- A client with nothing resolved and nothing stored. -/
def csEmpty : ClientState := { discovery := none, storage := Storage.empty }

/-- A client holding a full session: a three-part access token, a refresh
token, a cached user and an expiry. -/
def csTok : ClientState :=
  { discovery := none
  , storage := { accessToken := some "a.b.c"
               , refreshToken := some "RT"
               , user := some { sub := "u1", roles := none }
               , tokenExpiry := some 99 } }

/-- Clearing storage empties it whenever both delete operations succeed. -/
theorem clearStorage_flags (env : Env) (st : Storage)
    (h1 : env.secureDeleteOk = true) (h2 : env.asyncRemoveOk = true) :
    clearStorage env st = Storage.empty := by
  simp [clearStorage, h1, h2]

/-- Clearing empty storage leaves it empty under every environment. -/
theorem clearStorage_empty (env : Env) :
    clearStorage env Storage.empty = Storage.empty := by
  unfold clearStorage
  split
  · rfl
  · split <;> rfl

/-- Empty storage holds no access token. -/
theorem Storage.empty_accessToken : Storage.empty.accessToken = none := rfl

/-- Empty storage holds no refresh token. -/
theorem Storage.empty_refreshToken : Storage.empty.refreshToken = none := rfl

/-- Empty storage holds no user. -/
theorem Storage.empty_user : Storage.empty.user = none := rfl

/-- Resolving discovery never touches the persisted storage. -/
theorem getDiscovery_storage (env : Env) (cs : ClientState) :
    ((getDiscovery env cs).2).storage = cs.storage := by
  cases hd : cs.discovery with
  | some d => simp [getDiscovery, hd]
  | none => cases hf : env.fetchDiscovery <;> simp [getDiscovery, hd, hf]

/-- When both write operations succeed, `storeTokens` does not throw. -/
theorem storeTokens_ok (env : Env) (tokens : TokenSet) (st : Storage)
    (h3 : env.secureSetOk = true) (h4 : env.asyncSetOk = true) :
    (storeTokens env tokens st).1 = .ok () := by
  obtain ⟨a, r, x⟩ := tokens
  cases r <;> cases x <;>
    simp [storeTokens, storeTokens.storeExpiry, h3, h4] <;>
    split_ifs <;> rfl

/-- When both write operations succeed, the storage after `storeTokens`
holds each truthy component of the token set and leaves the other keys
unchanged. -/
theorem storeTokens_state (env : Env) (tokens : TokenSet) (st : Storage)
    (h3 : env.secureSetOk = true) (h4 : env.asyncSetOk = true) :
    (storeTokens env tokens st).2.accessToken =
      (if tokens.accessToken = "" then st.accessToken else some tokens.accessToken)
  ∧ (storeTokens env tokens st).2.refreshToken =
      (match tokens.refreshToken with
       | some rt => if rt = "" then st.refreshToken else some rt
       | none => st.refreshToken)
  ∧ (storeTokens env tokens st).2.tokenExpiry =
      (match tokens.expiresAt with
       | some e => if e = 0 then st.tokenExpiry else some e
       | none => st.tokenExpiry)
  ∧ (storeTokens env tokens st).2.user = st.user := by
  obtain ⟨a, r, x⟩ := tokens
  cases r <;> cases x <;>
    simp [storeTokens, storeTokens.storeExpiry, h3, h4] <;>
    split_ifs <;> simp_all

/-- Claim C5 (counterexample): the fallback discovery document does not
contain the conventional `/introspect` endpoint the claim lists — its
endpoints are exactly `/authorize`, `/token`, `/revoke`, `/userinfo`
and `/logout` under the base URL. -/
theorem fallbackDiscovery_no_introspect :
    ((discoveryEndpoints fallbackDiscovery).contains (BASE_URL ++ "/introspect")) = false
  ∧ discoveryEndpoints fallbackDiscovery =
      [BASE_URL ++ "/authorize", BASE_URL ++ "/token", BASE_URL ++ "/revoke",
       BASE_URL ++ "/userinfo", BASE_URL ++ "/logout"] := by
  exact ⟨by decide, rfl⟩

/-- Claim C5 (amended): the discovery resolver never signals an error —
on fetch failure it resolves to the hardcoded fallback endpoints
`/authorize`, `/token`, `/revoke`, `/userinfo`, `/logout` (but not
`/introspect`, which is hardcoded separately in the introspection
client) — and the resolved document is memoized: a second call, under
any environment, returns the same document and leaves the state
untouched. -/
theorem getDiscovery_fallback_and_memoized (env env' : Env) (cs : ClientState) :
    (cs.discovery = none → ∀ m, env.fetchDiscovery = .error m →
      getDiscovery env cs =
        (fallbackDiscovery, { cs with discovery := some fallbackDiscovery }))
  ∧ getDiscovery env' ((getDiscovery env cs).2) =
      ((getDiscovery env cs).1, (getDiscovery env cs).2) := by
  constructor
  · intro h m hf
    simp [getDiscovery, h, hf]
  · cases hd : cs.discovery with
    | some d => simp [getDiscovery, hd]
    | none => cases hf : env.fetchDiscovery <;> simp [getDiscovery, hd, hf]

/-- Claim C5 (witness): with an unset cache and a failing fetch, the
resolver returns the fallback document and memoizes it. -/
theorem getDiscovery_fallback_and_memoized_witness :
    csEmpty.discovery = none
  ∧ envBase.fetchDiscovery = .error "network unreachable"
  ∧ getDiscovery envBase csEmpty =
      (fallbackDiscovery, { csEmpty with discovery := some fallbackDiscovery }) :=
  ⟨rfl, rfl,
    (getDiscovery_fallback_and_memoized envBase envBase csEmpty).1 rfl
      "network unreachable" rfl⟩

/-- Claim C8: with empty storage, `getAccessToken` returns `null`,
`getUser` returns `null` and `isAuthenticated` returns `false`, none of
them raising and none of them mutating the client state. -/
theorem noSession_neutral (env : Env) (cs : ClientState)
    (h : cs.storage = Storage.empty) :
    getAccessToken env cs = (.ok none, cs)
  ∧ getUser env cs = (none, cs)
  ∧ isAuthenticated env cs.storage = false := by
  obtain ⟨d, st⟩ := cs
  replace h : st = Storage.empty := h
  subst h
  have hga : getAccessToken env ⟨d, Storage.empty⟩ = (.ok none, ⟨d, Storage.empty⟩) := by
    simp [getAccessToken, isTokenValidLocally, getStoredToken,
      Storage.empty_accessToken, Storage.empty_refreshToken,
      refreshAccessToken, refreshAccessTokenBody, validateRefreshToken,
      clearStorage_empty]
  refine ⟨hga, ?_, ?_⟩
  · simp [getUser, hga, Storage.empty_user]
  · simp [isAuthenticated, validateAccessToken, getStoredToken,
      Storage.empty_accessToken]

/-- Claim C8 (witness): the neutral no-session behavior at the concrete
empty client. -/
theorem noSession_neutral_witness :
    csEmpty.storage = Storage.empty
  ∧ (getAccessToken envBase csEmpty = (.ok none, csEmpty)
      ∧ getUser envBase csEmpty = (none, csEmpty)
      ∧ isAuthenticated envBase csEmpty.storage = false) :=
  ⟨rfl, noSession_neutral envBase csEmpty rfl⟩

/-- Claim C9: when the storage deletes succeed, calling `logout` twice in
a row never raises on the second call and leaves the storage empty after
each call — whatever the remote logout outcome of either call. -/
theorem logout_idempotent (env env' : Env) (cs : ClientState)
    (h1 : env.secureDeleteOk = true) (h2 : env.asyncRemoveOk = true)
    (h1' : env'.secureDeleteOk = true) (h2' : env'.asyncRemoveOk = true) :
    (logout env' (logout env cs).2).1 = .ok ()
  ∧ (logout env cs).2.storage = Storage.empty
  ∧ (logout env' (logout env cs).2).2.storage = Storage.empty := by
  refine ⟨rfl, ?_, ?_⟩
  · simp [logout, clearStorage_flags env cs.storage h1 h2]
  · simp [logout, clearStorage_flags env cs.storage h1 h2,
      clearStorage_flags env' Storage.empty h1' h2']

/-- Claim C9 (witness): double logout on a full session, with both remote
logout calls failing, still ends and stays empty without raising. -/
theorem logout_idempotent_witness :
    envBase.logoutPost = .error "logout endpoint unreachable"
  ∧ ((logout envBase (logout envBase csTok).2).1 = .ok ()
      ∧ (logout envBase csTok).2.storage = Storage.empty
      ∧ (logout envBase (logout envBase csTok).2).2.storage = Storage.empty) :=
  ⟨rfl, logout_idempotent envBase envBase csTok rfl rfl rfl rfl⟩

/-- Claim C4 (counterexample): when the local storage cleanup fails,
`logout` does not raise a `LOGOUT_FAILED` error as the claim states —
`clearStorage` swallows the failure, `logout` succeeds, and the stored
session data is left in place. -/
theorem logout_swallows_cleanup_failure :
    (logout envDeleteFail csTok).1 = .ok ()
  ∧ (logout envDeleteFail csTok).2.storage = csTok.storage
  ∧ csTok.storage ≠ Storage.empty := by
  exact ⟨rfl, rfl, by decide⟩

/-- Claim C4 (amended): `logout` never raises at all — its `catch` clause
is unreachable because the remote call's failure is swallowed inline and
`clearStorage` catches its own failures (merely logging them), so no
`LOGOUT_FAILED` error is ever produced; when the storage deletes
succeed it unconditionally clears all persisted tokens, user and
expiry, regardless of the remote logout outcome. -/
theorem logout_never_raises (env : Env) (cs : ClientState) :
    (logout env cs).1 = .ok ()
  ∧ (env.secureDeleteOk = true → env.asyncRemoveOk = true →
      (logout env cs).2.storage = Storage.empty) := by
  refine ⟨rfl, fun h1 h2 => ?_⟩
  simp [logout, clearStorage_flags env cs.storage h1 h2]

/-- Claim C4 (witness): logout on a full session with a failing remote
call succeeds and clears everything. -/
theorem logout_never_raises_witness :
    (logout envBase csTok).1 = .ok ()
  ∧ (logout envBase csTok).2.storage = Storage.empty :=
  ⟨(logout_never_raises envBase csTok).1,
   (logout_never_raises envBase csTok).2 rfl rfl⟩

/-- When the persisting writes succeed, every error the refresh body can
produce is normalized by its catch clause to the `refresh_failed` kind. -/
theorem refreshBody_error_code (env : Env) (cs : ClientState)
    (hs : env.secureSetOk = true) (ha : env.asyncSetOk = true) :
    ∀ e cs2, refreshAccessTokenBody env cs = (.error e, cs2) →
      (handleError e .refresh_failed).code = some .refresh_failed := by
  intro e cs2 h
  by_cases hv : (validateRefreshToken env cs.storage).active = false
  · simp only [refreshAccessTokenBody, hv, if_true, Prod.mk.injEq,
      Except.error.injEq] at h
    rw [← h.1]
    rfl
  · cases hg : getStoredToken cs.storage .refresh_token with
    | none =>
      simp only [refreshAccessTokenBody, hv, hg, Bool.true_eq_false, if_false,
        Prod.mk.injEq, Except.error.injEq] at h
      rw [← h.1]
      rfl
    | some rt =>
      by_cases hrt : rt = ""
      · simp only [refreshAccessTokenBody, hv, hg, hrt, Bool.true_eq_false,
          if_false, if_true, Prod.mk.injEq, Except.error.injEq] at h
        rw [← h.1]
        rfl
      · cases hc : env.refreshCall rt with
        | error m =>
          simp only [refreshAccessTokenBody, hv, hg, hrt, hc, Bool.true_eq_false,
            if_false, Prod.mk.injEq, Except.error.injEq] at h
          rw [← h.1]
          rfl
        | ok tr =>
          rcases hst : storeTokens env (refreshTokenSet env tr rt)
              ((getDiscovery env cs).2).storage with ⟨r, st⟩
          cases r with
          | error e1 =>
            exfalso
            have hok := storeTokens_ok env (refreshTokenSet env tr rt)
              ((getDiscovery env cs).2).storage hs ha
            rw [hst] at hok
            simp at hok
          | ok u =>
            simp only [refreshAccessTokenBody, hv, hg, hrt, hc, hst,
              Bool.true_eq_false, if_false, Prod.mk.injEq] at h
            exact absurd h.1 (by simp)

/-- Claim C1 (amended): if the stored refresh token introspects as
inactive (or is absent), `refreshAccessToken` raises a `refresh_failed`
error and — when the storage deletes succeed — all stored
authentication data is absent afterward; more generally, under
reliable storage writes and deletes, any failing refresh clears all
stored data and propagates an error of kind `refresh_failed` (a failing
token-persist step instead propagates its own `storage_error` kind,
still after clearing — see the counterexample). -/
theorem refresh_fail_closed (env : Env) (cs : ClientState)
    (h1 : env.secureDeleteOk = true) (h2 : env.asyncRemoveOk = true)
    (h3 : env.secureSetOk = true) (h4 : env.asyncSetOk = true) :
    ((validateRefreshToken env cs.storage).active = false →
      refreshAccessToken env cs =
        (.error { message := "Refresh token is invalid or expired"
                , code := some .refresh_failed },
         { cs with storage := Storage.empty }))
  ∧ (∀ e cs', refreshAccessToken env cs = (.error e, cs') →
      e.code = some .refresh_failed ∧ cs'.storage = Storage.empty) := by
  constructor
  · intro hv
    simp [refreshAccessToken, refreshAccessTokenBody, hv, handleError,
      clearStorage_flags env cs.storage h1 h2]
  · intro e cs' h
    unfold refreshAccessToken at h
    rcases hb : refreshAccessTokenBody env cs with ⟨res, cs2⟩
    rw [hb] at h
    cases res with
    | ok t => simp at h
    | error e0 =>
      simp only [Prod.mk.injEq, Except.error.injEq] at h
      obtain ⟨he, hcs⟩ := h
      constructor
      · rw [← he]
        exact refreshBody_error_code env cs h3 h4 e0 cs2 hb
      · rw [← hcs]
        exact clearStorage_flags env cs2.storage h1 h2

/-- Claim C1 (witness): with a present refresh token that introspects as
inactive, refresh fails with `refresh_failed` and storage ends empty. -/
theorem refresh_fail_closed_witness :
    (validateRefreshToken envBase csTok.storage).active = false
  ∧ refreshAccessToken envBase csTok =
      (.error { message := "Refresh token is invalid or expired"
              , code := some .refresh_failed },
       { csTok with storage := Storage.empty }) :=
  ⟨rfl, (refresh_fail_closed envBase csTok rfl rfl rfl rfl).1 rfl⟩

/-- Claim C1 (counterexample): a refresh whose token-persist step fails
still clears storage, but the propagated error kind is `storage_error`,
not the `refresh_failed` the claim requires for any failure. -/
theorem refresh_storage_error_kind :
    isError (refreshAccessToken envActiveSetFail csTok).1 = true
  ∧ errCode (refreshAccessToken envActiveSetFail csTok).1 ≠ some .refresh_failed
  ∧ errCode (refreshAccessToken envActiveSetFail csTok).1 = some .storage_error
  ∧ (refreshAccessToken envActiveSetFail csTok).2.storage = Storage.empty := by
  exact ⟨rfl, by decide, rfl, rfl⟩

/-- Claim C2: `getAccessToken` checks local validity first and refreshes
when it fails, mapping a failed refresh to `null` rather than an
exception; a locally valid token is then introspected with the server,
an inactive verdict again triggering the refresh path; only a
server-confirmed token is returned, as stored and with the state
untouched — and the method never produces an error in any case. -/
theorem getAccessToken_dual_check (env : Env) (cs : ClientState) :
    (isTokenValidLocally env cs.storage = false →
      getAccessToken env cs = refreshToGet (refreshAccessToken env cs))
  ∧ (isTokenValidLocally env cs.storage = true →
      isAuthenticated env cs.storage = false →
      getAccessToken env cs = refreshToGet (refreshAccessToken env cs))
  ∧ (isTokenValidLocally env cs.storage = true →
      isAuthenticated env cs.storage = true →
      getAccessToken env cs = (.ok (getStoredToken cs.storage .access_token), cs))
  ∧ isError (getAccessToken env cs).1 = false := by
  have hm : ∀ p : Except BlitzWareError String × ClientState,
      (match p with
       | (.ok t, cs') => ((.ok (some t) : Except BlitzWareError (Option String)), cs')
       | (.error _, cs') => (.ok none, cs')) = refreshToGet p := by
    intro p
    rcases p with ⟨res, cs'⟩
    cases res <;> rfl
  refine ⟨?_, ?_, ?_, ?_⟩
  · intro h
    simp only [getAccessToken, h, if_true]
    exact hm _
  · intro h1 h2
    simp only [getAccessToken, h1, h2, Bool.true_eq_false, if_false, if_true]
    exact hm _
  · intro h1 h2
    simp [getAccessToken, h1, h2]
  · unfold getAccessToken
    split
    · rcases hr : refreshAccessToken env cs with ⟨res, cs'⟩
      cases res <;> rfl
    · split
      · rcases hr : refreshAccessToken env cs with ⟨res, cs'⟩
        cases res <;> rfl
      · rfl

/-- Claim C2 (witness): with an empty store the local check fails and the
result is exactly the null-mapped refresh outcome. -/
theorem getAccessToken_dual_check_witness :
    isTokenValidLocally envBase csEmpty.storage = false
  ∧ getAccessToken envBase csEmpty = refreshToGet (refreshAccessToken envBase csEmpty) :=
  ⟨rfl, (getAccessToken_dual_check envBase csEmpty).1 rfl⟩

/-- Claim C3 (amended): when the freshly issued access token introspects
as inactive during `login`, the login fails — but with the
`token_expired` kind raised inside the user-info fetch, which
`handleError` passes through unchanged rather than re-tagging it
`authentication_failed`. -/
theorem login_inactive_introspection (env : Env) (cs : ClientState)
    (code : String) (tr : TokenResponse)
    (h3 : env.secureSetOk = true) (h4 : env.asyncSetOk = true)
    (hp : env.prompt = .success code) (he : env.exchange = .ok tr)
    (hat : tr.accessToken ≠ "")
    (hi : env.introspect tr.accessToken .access_token = .ok { active := false }) :
    (login env cs).1 =
      .error { message := "Access token is invalid or expired"
             , code := some .token_expired } := by
  rcases hst : storeTokens env (loginTokenSet env tr)
      ((getDiscovery env cs).2).storage with ⟨r, st2⟩
  have hok := storeTokens_ok env (loginTokenSet env tr)
    ((getDiscovery env cs).2).storage h3 h4
  rw [hst] at hok
  cases r with
  | error e1 => simp at hok
  | ok u =>
    have hacc := (storeTokens_state env (loginTokenSet env tr)
      ((getDiscovery env cs).2).storage h3 h4).1
    rw [hst] at hacc
    simp only [loginTokenSet] at hacc
    rw [if_neg hat] at hacc
    have hf : fetchUserInfo env st2 =
        .error (.blitz { message := "Access token is invalid or expired"
                       , code := some .token_expired }) := by
      simp [fetchUserInfo, validateAccessToken, getStoredToken, hacc, hat,
        introspectToken, hi]
    simp [login, hp, he, hst, hf, handleError]

/-- Claim C3 (counterexample): a successful code exchange followed by an
inactive introspection makes `login` fail, but with a kind other than
the `authentication_failed` the claim states (its kind is
`token_expired`). -/
theorem login_inactive_kind_not_auth_failed :
    isError (login envBase csEmpty).1 = true
  ∧ errCode (login envBase csEmpty).1 ≠ some .authentication_failed
  ∧ errCode (login envBase csEmpty).1 = some .token_expired
  ∧ envBase.introspect "AT1" .access_token = .ok { active := false } := by
  exact ⟨rfl, by decide, rfl, rfl⟩

/-- Claim C3 (witness): the amended behavior at the concrete environment
whose exchange issues `AT1` and whose introspection reports inactive. -/
theorem login_inactive_introspection_witness :
    envBase.prompt = .success "AUTHCODE"
  ∧ envBase.exchange =
      .ok { accessToken := "AT1", refreshToken := some "RT1", expiresIn := some 3600 }
  ∧ (login envBase csEmpty).1 =
      .error { message := "Access token is invalid or expired"
             , code := some .token_expired } :=
  ⟨rfl, rfl,
    login_inactive_introspection envBase csEmpty "AUTHCODE"
      { accessToken := "AT1", refreshToken := some "RT1", expiresIn := some 3600 }
      rfl rfl rfl rfl (by decide) rfl⟩

/-- Claim C10: `login` persists the freshly exchanged token set before the
introspection/user-info validation step; when that later step fails the
error propagates and the already-persisted storage is kept exactly as
the persist step left it — the new access token, rotated refresh token
and expiry remain, with no rollback. -/
theorem login_no_rollback (env : Env) (cs : ClientState)
    (code : String) (tr : TokenResponse) (e : JsError)
    (h3 : env.secureSetOk = true) (h4 : env.asyncSetOk = true)
    (hp : env.prompt = .success code) (he : env.exchange = .ok tr)
    (hf : fetchUserInfo env (storeTokens env (loginTokenSet env tr) cs.storage).2 =
      .error e) :
    (login env cs).1 = .error (handleError e .authentication_failed)
  ∧ (login env cs).2.storage = (storeTokens env (loginTokenSet env tr) cs.storage).2
  ∧ (tr.accessToken ≠ "" →
      (login env cs).2.storage.accessToken = some tr.accessToken)
  ∧ (∀ rt, tr.refreshToken = some rt → rt ≠ "" →
      (login env cs).2.storage.refreshToken = some rt)
  ∧ (∀ n, tr.expiresIn = some n → 0 < n → 0 ≤ env.now →
      (login env cs).2.storage.tokenExpiry = some (env.now + n * 1000)) := by
  have hgs := getDiscovery_storage env cs
  rcases hst : storeTokens env (loginTokenSet env tr) cs.storage with ⟨r, st2⟩
  have hok := storeTokens_ok env (loginTokenSet env tr) cs.storage h3 h4
  rw [hst] at hok
  rw [hst] at hf
  cases r with
  | error e1 => simp at hok
  | ok u =>
    have hfields := storeTokens_state env (loginTokenSet env tr) cs.storage h3 h4
    rw [hst] at hfields
    dsimp only at hfields hf
    have hlogin : login env cs =
        (.error (handleError e .authentication_failed),
         { (getDiscovery env cs).2 with storage := st2 }) := by
      simp [login, hp, he, hgs, hst, hf]
    have hl1 : (login env cs).1 = .error (handleError e .authentication_failed) := by
      rw [hlogin]
    have hl2 : (login env cs).2.storage = st2 := by
      rw [hlogin]
    refine ⟨hl1, by rw [hl2], ?_, ?_, ?_⟩
    · intro hat
      rw [hl2]
      have h1 := hfields.1
      simp [loginTokenSet, hat] at h1
      exact h1
    · intro rt hrt hne
      rw [hl2]
      have h2 := hfields.2.1
      simp [loginTokenSet, hrt, hne] at h2
      exact h2
    · intro n hn hn2 hnow
      rw [hl2]
      have h5 := hfields.2.2.1
      have hn0 : ¬n = 0 := by omega
      have hsum : ¬env.now + n * 1000 = 0 := by omega
      simp [loginTokenSet, hn, hn0, hsum] at h5
      exact h5

/-- Claim C10 (witness): with the concrete environment the token set
`AT1`/`RT1`/expiry is persisted, the user-info step fails on the
inactive introspection, and the persisted data survives the failed
login. -/
theorem login_no_rollback_witness :
    fetchUserInfo envBase
        (storeTokens envBase
          (loginTokenSet envBase
            { accessToken := "AT1", refreshToken := some "RT1", expiresIn := some 3600 })
          csEmpty.storage).2 =
      .error (.blitz { message := "Access token is invalid or expired"
                     , code := some .token_expired })
  ∧ (login envBase csEmpty).2.storage.accessToken = some "AT1"
  ∧ (login envBase csEmpty).2.storage.refreshToken = some "RT1"
  ∧ (login envBase csEmpty).2.storage.tokenExpiry = some (5000 + 3600 * 1000) :=
  ⟨rfl,
   (login_no_rollback envBase csEmpty "AUTHCODE"
      { accessToken := "AT1", refreshToken := some "RT1", expiresIn := some 3600 }
      (.blitz { message := "Access token is invalid or expired"
              , code := some .token_expired })
      rfl rfl rfl rfl rfl).2.2.1 (by decide),
   (login_no_rollback envBase csEmpty "AUTHCODE"
      { accessToken := "AT1", refreshToken := some "RT1", expiresIn := some 3600 }
      (.blitz { message := "Access token is invalid or expired"
              , code := some .token_expired })
      rfl rfl rfl rfl rfl).2.2.2.1 "RT1" rfl (by decide),
   (login_no_rollback envBase csEmpty "AUTHCODE"
      { accessToken := "AT1", refreshToken := some "RT1", expiresIn := some 3600 }
      (.blitz { message := "Access token is invalid or expired"
              , code := some .token_expired })
      rfl rfl rfl rfl rfl).2.2.2.2 3600 rfl (by decide) (by decide)⟩

/-- The early-exit traversal of the utility `hasRole` succeeds on a list
of bare-string entries and computes exactly the case-insensitive
membership test. -/
theorem someExcept_all_str (q : String) (rs : List RoleEntry)
    (h : ∀ e ∈ rs, e.isStr = true) :
    someExcept
      (fun e =>
        match e with
        | .str s => .ok (jsToLower s == jsToLower q)
        | .obj _ => .error "TypeError: role.toLowerCase is not a function")
      rs = .ok (rs.any (entryMatches q)) := by
  induction rs with
  | nil => rfl
  | cons e rest ih =>
    cases e with
    | obj r =>
      exact absurd (h _ (List.mem_cons_self _ _)) (by simp [RoleEntry.isStr])
    | str t =>
      have hrest := fun e he => h e (List.mem_cons_of_mem _ he)
      cases hb : (jsToLower t == jsToLower q) <;>
        simp [someExcept, hb, entryMatches, ih hrest]

/-- Claim C6 (counterexample): on a role list holding an object entry
named `admin`, the standalone utility `hasRole` queried with `Admin`
does not return true (nor any value) — it raises a `TypeError`, because
it calls `toLowerCase` directly on the object entry. -/
theorem utilsHasRole_throws_on_object_entry :
    utilsHasRole
        (some { sub := "u1"
              , roles := some [.obj { id := "1", name := "admin", description := none }] })
        "Admin"
      = .error "TypeError: role.toLowerCase is not a function" := rfl

/-- Claim C6 (amended): role matching is case-insensitive on role names
and yields false on a null user or absent roles; the client's `hasRole`
is total over both entry shapes (bare strings and objects exposing a
`name`), while the standalone utility `hasRole` satisfies the claim
only on bare-string role lists — an object entry makes it raise a
`TypeError` (see the counterexample). -/
theorem hasRole_case_insensitive_total (q : String) :
    utilsHasRole none q = .ok false
  ∧ (∀ u : User, u.roles = none → utilsHasRole (some u) q = .ok false)
  ∧ (∀ (u : User) rs, u.roles = some rs → (∀ e ∈ rs, e.isStr = true) →
      utilsHasRole (some u) q = .ok (rs.any (entryMatches q)))
  ∧ (∀ s, jsToLower s = jsToLower q → entryMatches q (.str s) = true)
  ∧ (∀ r : Role, jsToLower r.name = jsToLower q → entryMatches q (.obj r) = true)
  ∧ (∀ env cs, ((clientHasRole env cs q).1 = true ↔
      ∃ u rs, (getUser env cs).1 = some u ∧ u.roles = some rs ∧
        rs.any (entryMatches q) = true)) := by
  refine ⟨rfl, ?_, ?_, ?_, ?_, ?_⟩
  · intro u hu
    simp [utilsHasRole, hu]
  · intro u rs hu hstr
    simp [utilsHasRole, hu, someExcept_all_str q rs hstr]
  · intro s hs
    simp [entryMatches, hs]
  · intro r hr
    simp [entryMatches, hr]
  · intro env cs
    rcases hg : getUser env cs with ⟨uo, cs2⟩
    cases uo with
    | none => simp [clientHasRole, hg]
    | some u =>
      cases hr : u.roles with
      | none => simp [clientHasRole, hg, hr]
      | some rs => simp [clientHasRole, hg, hr]

/-- Claim C6 (witness): on a bare-string role list containing `admin`,
the utility `hasRole` queried with `Admin` returns true. -/
theorem hasRole_case_insensitive_total_witness :
    (∀ e ∈ [RoleEntry.str "admin"], e.isStr = true)
  ∧ utilsHasRole (some { sub := "u1", roles := some [.str "admin"] }) "Admin"
      = .ok ([RoleEntry.str "admin"].any (entryMatches "Admin"))
  ∧ ([RoleEntry.str "admin"].any (entryMatches "Admin")) = true :=
  ⟨by decide,
   (hasRole_case_insensitive_total "Admin").2.2.1
     { sub := "u1", roles := some [.str "admin"] } [.str "admin"] rfl (by decide),
   by decide⟩

/-- Claim C7: the local validity check is false exactly when no stored
token yields a future expiry — in particular a decoded `exp` whose
millisecond value equals the current time is already expired (the
comparison is strict futurity), and a token that is not a three-part
JWT, lacks an `exp` claim, or carries a non-numeric `exp` yields no
expiry at all. -/
theorem isTokenValidLocally_boundary (env : Env) (st : Storage) :
    (isTokenValidLocally env st = false ↔
      ∀ tok expMs, st.accessToken = some tok → tok ≠ "" →
        localTokenExpiryMs env tok = some expMs → expMs ≤ env.now)
  ∧ (∀ tok, (jsSplit '.' tok).length ≠ 3 → localTokenExpiryMs env tok = none)
  ∧ (∀ tok, jsGetField (parseJwt env tok) "exp" = .undefined →
      localTokenExpiryMs env tok = none)
  ∧ (∀ tok s, jsGetField (parseJwt env tok) "exp" = .str s → strToNumber s = none →
      localTokenExpiryMs env tok = none) := by
  refine ⟨?_, ?_, ?_, ?_⟩
  · cases ha : st.accessToken with
    | none => simp [isTokenValidLocally, getStoredToken, ha]
    | some tok0 =>
      by_cases h0 : tok0 = ""
      · subst h0
        simp only [isTokenValidLocally, getStoredToken, ha, if_pos rfl]
        constructor
        · intro _ tok e h1 h2 h3
          injection h1 with h1
          exact absurd h1.symm h2
        · intro _
          trivial
      · cases he : localTokenExpiryMs env tok0 with
        | none =>
          simp only [isTokenValidLocally, getStoredToken, ha, if_neg h0, he]
          constructor
          · intro _ tok e h1 h2 h3
            injection h1 with h1
            subst h1
            rw [he] at h3
            exact absurd h3 (by simp)
          · intro _
            trivial
        | some em =>
          simp only [isTokenValidLocally, getStoredToken, ha, if_neg h0, he,
            decide_eq_false_iff_not, Int.not_lt]
          constructor
          · intro hle tok e h1 h2 h3
            injection h1 with h1
            subst h1
            rw [he] at h3
            have h4 : em = e := by injection h3
            omega
          · intro hall
            exact hall tok0 em rfl h0 he
  · intro tok hlen
    by_cases ht : tok = ""
    · subst ht
      rfl
    · simp [localTokenExpiryMs, parseJwt, ht, hlen, jsGetField, parseExp,
        jsTruthy, jsTypeofObject]
  · intro tok hundef
    by_cases hg : jsTruthy (parseJwt env tok) ∧ jsTypeofObject (parseJwt env tok)
    · simp [localTokenExpiryMs, hg, hundef, parseExp, jsTruthy]
    · simp [localTokenExpiryMs, hg]
  · intro tok s hstr hnan
    by_cases hg : jsTruthy (parseJwt env tok) ∧ jsTypeofObject (parseJwt env tok)
    · by_cases hs0 : s = ""
      · subst hs0
        simp [localTokenExpiryMs, hg, hstr, parseExp, jsTruthy]
      · simp [localTokenExpiryMs, hg, hstr, parseExp, jsTruthy, hs0, jsNumber, hnan]
    · simp [localTokenExpiryMs, hg]

/-- Claim C7 (witness): a token without dots is not a three-part JWT and
yields no local expiry. -/
theorem isTokenValidLocally_boundary_witness :
    (jsSplit '.' "nodots").length ≠ 3
  ∧ localTokenExpiryMs envBase "nodots" = none :=
  ⟨by decide,
   (isTokenValidLocally_boundary envBase csTok.storage).2.1 "nodots" (by decide)⟩

end BlitzWare
